import Mathlib

/-!
# MailShieldAI — verification of the triage pipeline spec against the repository

Part I embeds the dashboard API client (`lib/api` source file): the `Email`
record, the localStorage email cache, and the `request` HTTP helper.
Part II embeds the event-driven worker pipeline (Intent Router, Analysis
Worker, Action Worker, status state machine).  The worker implementation
itself is not present in the repository snapshot (only the design report
`agent_worker.md` describing it), so Part II is modelled from the spec's
words, marked `Modelled from the spec:` on each definition.

Conventions: JavaScript numbers that are integral in the source
(`Date.now()` timestamps, HTTP status codes, millisecond durations) are
`Nat`; exceptional control flow (`throw` / rejected promises) is made
explicit in return types; `try/catch` blocks become total case analysis.
-/

namespace MailShield

/-! ## Part I: dashboard API client (`lib/api`) -/

/-- The status union type of the `Email` record as declared in the source:
`"PENDING" | "PROCESSING" | "COMPLETED" | "FAILED" | "SPAM"`. -/
inductive EmailStatus
| PENDING
| PROCESSING
| COMPLETED
| FAILED
| SPAM
deriving DecidableEq, Repr

/-- Serialization of an `EmailStatus` to its JSON string literal. -/
def EmailStatus.toString : EmailStatus → String
| .PENDING => "PENDING"
| .PROCESSING => "PROCESSING"
| .COMPLETED => "COMPLETED"
| .FAILED => "FAILED"
| .SPAM => "SPAM"

/-- All constructors of the code's `EmailStatus` union. -/
def EmailStatus.all : List EmailStatus :=
[.PENDING, .PROCESSING, .COMPLETED, .FAILED, .SPAM]

/-- The string domain of the code's `status` field: the five literals of the
union type in the `Email` declaration. -/
def emailStatusStrings : List String := EmailStatus.all.map EmailStatus.toString

/-- The status domain the spec asserts in section 3 of the design document
(`status` in the seven-element set).  Written from the spec's words, for
comparison against `emailStatusStrings` which is written from the code. -/
def specStatusStrings : List String :=
["PENDING", "PROCESSING", "ANALYZING", "ACTION_PENDING", "COMPLETED", "FAILED", "SPAM"]

/-- The `risk_tier` union of the `Email` record: `"SAFE" | "CAUTIOUS" | "THREAT"`. -/
inductive RiskTier
| SAFE
| CAUTIOUS
| THREAT
deriving DecidableEq, Repr

/-- The `Email` record exposed by the dashboard API client.  `?` fields are
`Option`; `threat_category` and the auth-metadata strings are kept as the
raw strings the API returns; `analysis_result` is an opaque string map. -/
structure Email where
  id : String
  sender : String
  recipient : String
  subject : String
  body_preview : Option String
  received_at : Option String
  threat_category : Option String
  detection_reason : Option String
  spf_status : Option String
  dkim_status : Option String
  dmarc_status : Option String
  sender_ip : Option String
  attachment_info : Option String
  status : EmailStatus
  risk_score : Option Nat
  risk_tier : Option RiskTier
  analysis_result : Option (List (String × String))
deriving DecidableEq, Repr

/-- `CACHE_EXPIRY_MS = 5 * 60 * 1000` from the source. -/
def CACHE_EXPIRY_MS : Nat := 5 * 60 * 1000

/-- `EMAILS_CACHE_KEY` from the source. -/
def EMAILS_CACHE_KEY : String := "mailshield_emails_cache"

/-- The `CacheEntry<T>` type of the source: cached data plus the
`Date.now()` timestamp recorded when it was stored. -/
structure CacheEntry (T : Type) where
  data : T
  timestamp : Nat
deriving DecidableEq, Repr

/-- What `localStorage.getItem(EMAILS_CACHE_KEY)` followed by `JSON.parse`
can yield: no entry (`getItem` returns null), a string that `JSON.parse`
throws on, or a well-formed `CacheEntry<Email[]>`. -/
inductive StoredVal
| absent
| malformed (raw : String)
| entry (e : CacheEntry (List Email))
deriving DecidableEq

/-- The browser-side state the cache utilities read and write:
whether `window` exists (`typeof window === "undefined"` guard), the
content of the `EMAILS_CACHE_KEY` slot, the current clock `Date.now()`,
and whether `localStorage.setItem` succeeds (it throws on quota errors). -/
structure Env where
  hasWindow : Bool
  storage : StoredVal
  now : Nat
  setItemOk : Bool
deriving DecidableEq

/-- `getCachedEmails` from the source.  Returns the value the function
returns together with the storage state it leaves behind (the expired
branch calls `localStorage.removeItem`).  The `catch` that swallows a
`JSON.parse` failure is the `malformed` branch; every `throw` site in the
source is inside `try`, so the embedding is a total function. -/
def getCachedEmails (env : Env) : Option (List Email) × Env :=
  if env.hasWindow = false then (none, env)
  else
    match env.storage with
    | .absent => (none, env)
    | .malformed _ => (none, env)
    | .entry e =>
        if env.now - e.timestamp > CACHE_EXPIRY_MS then
          (none, { env with storage := .absent })
        else
          (some e.data, env)

/-- `setCachedEmails` from the source: store the list with the current
timestamp; a `setItem` failure (quota exceeded) is caught and ignored. -/
def setCachedEmails (emails : List Email) (env : Env) : Env :=
  if env.hasWindow = false then env
  else if env.setItemOk then { env with storage := .entry ⟨emails, env.now⟩ }
  else env

/-- `clearEmailsCache` from the source. -/
def clearEmailsCache (env : Env) : Env :=
  if env.hasWindow = false then env
  else { env with storage := .absent }

/-- Outcome of the `request<T>` helper: a returned value, the `Error` the
helper itself throws on a non-ok response (carrying its message), or the
rejection that surfaces from `res.json()` on an ok response. -/
inductive RequestOutcome (J : Type)
| success (v : J)
| apiError (message : String)
| jsonError
deriving DecidableEq

/-- Whether an outcome is the helper's own thrown `Error`. -/
def RequestOutcome.isApiError {J : Type} : RequestOutcome J → Bool
| .apiError _ => true
| _ => false

/-- An HTTP response as the helper observes it: `res.ok`, `res.status`,
the result of `res.text()` (`none` when reading the body fails: that
rejection is caught and ignored), and the result of `res.json()`
(`none` when parsing rejects). -/
structure HttpResponse (J : Type) where
  ok : Bool
  status : Nat
  textResult : Option String
  jsonResult : Option J

/-- The error message built for a non-ok response: the base message, with
the response body appended only when `NODE_ENV === "development"` and
`res.text()` succeeded. -/
def requestErrorMessage {J : Type} (dev : Bool) (res : HttpResponse J) : String :=
  let base := "API request failed (" ++ toString res.status ++ ")"
  if dev then
    match res.textResult with
    | some body => base ++ ": " ++ body
    | none => base
  else base

/-- The `request<T>` helper from the source, as a function of the
`NODE_ENV === "development"` flag and the fetched response. -/
def request {J : Type} (dev : Bool) (res : HttpResponse J) : RequestOutcome J :=
  if res.ok = false then .apiError (requestErrorMessage dev res)
  else
    match res.jsonResult with
    | some v => .success v
    | none => .jsonError

/-- The path `fetchEmails` requests from the API. -/
def emailsPath : String := "/api/emails?limit=20"

/-- Result of a `fetchEmails` call: the returned list, the browser state
left behind, and the API paths the call requested (in order). -/
structure FetchResult where
  result : List Email
  env : Env
  requests : List String
deriving DecidableEq

/-- `fetchEmails` from the source, for the case where the API request
succeeds and returns `api` (the claims under verification concern the
caching behaviour, not transport failures).  When the cache is skipped or
misses, the helper requests `/api/emails?limit=20`, caches the response
and returns it; on a cache hit it returns the cached list with no
request. -/
def fetchEmails (api : List Email) (skipCache : Bool) (env : Env) : FetchResult :=
  if skipCache = false then
    match getCachedEmails env with
    | (some cached, env1) => ⟨cached, env1, []⟩
    | (none, env1) => ⟨api, setCachedEmails api env1, [emailsPath]⟩
  else
    ⟨api, setCachedEmails api env, [emailsPath]⟩

/-! ## Part II: event-driven worker pipeline

The Intent Router, Analysis Worker, Action Worker and status state machine
are described by the repository only in the design report `agent_worker.md`;
their implementation is not in the snapshot.  Every definition below is
therefore modelled from the spec (sections 3 to 4.5) and the report. -/

/-- Modelled from the spec: the severity ordering SAFE < CAUTIOUS < THREAT
on risk tiers (spec section 3 invariants).  The worker code holding this
policy is missing from the snapshot. -/
def RiskTier.severity : RiskTier → Nat
| .SAFE => 0
| .CAUTIOUS => 1
| .THREAT => 2

/-- Modelled from the spec: `max` of two tiers per the severity ordering,
used by the Analysis Worker's `max(existing, refined)` recomputation
(spec section 4.4); the worker code is missing from the snapshot. -/
def RiskTier.max (a b : RiskTier) : RiskTier :=
  if b.severity ≤ a.severity then a else b

/-- Modelled from the spec: the seven states of the status state machine
(spec section 4.5); the shared state-machine module is missing from the
snapshot. -/
inductive EventStatus
| PENDING
| PROCESSING
| ANALYZING
| ACTION_PENDING
| COMPLETED
| FAILED
| SPAM
deriving DecidableEq, Repr

/-- All states of the status state machine. -/
def EventStatus.all : List EventStatus :=
[.PENDING, .PROCESSING, .ANALYZING, .ACTION_PENDING, .COMPLETED, .FAILED, .SPAM]

/-- Modelled from the spec: whether a status is terminal (COMPLETED,
FAILED, or SPAM, the terminal alias of COMPLETED; spec section 4.5). -/
def terminalStatus : EventStatus → Bool
| .COMPLETED => true
| .FAILED => true
| .SPAM => true
| _ => false

/-- Modelled from the spec: the legal transitions of the status state
machine (spec section 4.5): PENDING→PROCESSING (claim by the router),
PROCESSING→ANALYZING or PROCESSING→ACTION_PENDING (routing decision),
ANALYZING→ACTION_PENDING (analysis done), ACTION_PENDING→COMPLETED
(enforcement success), and any non-terminal state →FAILED. -/
def legalStep : EventStatus → EventStatus → Bool
| .PENDING, .PROCESSING => true
| .PROCESSING, .ANALYZING => true
| .PROCESSING, .ACTION_PENDING => true
| .ANALYZING, .ACTION_PENDING => true
| .ACTION_PENDING, .COMPLETED => true
| s, .FAILED => !terminalStatus s
| _, _ => false

/-- Reachability in at most two legal steps (enough for any single worker
invocation: the router does claim-then-route, two hops). -/
def stepsTo (a b : EventStatus) : Bool :=
  a == b || legalStep a b || EventStatus.all.any (fun m => legalStep a m && legalStep m b)

/-- Modelled from the spec: the intent label the classification
collaborator assigns; UNKNOWN forces deep analysis (spec section 4.3). -/
inductive Intent
| UNKNOWN
| KNOWN (label : String)
deriving DecidableEq, Repr

/-- Modelled from the spec: the `EmailEvent` record of the event store
(spec section 3).  `risk_score` is the numeric score scaled to an integer;
`version` is the optimistic-concurrency counter. -/
structure EmailEvent where
  id : Nat
  sender : String
  recipient : String
  subject : String
  received_at : Option String
  spf_status : Option String
  dkim_status : Option String
  dmarc_status : Option String
  sender_ip : Option String
  attachment_info : Option String
  intent : Intent
  detection_reason : Option String
  risk_score : Nat
  risk_tier : RiskTier
  analysis_result : Option (List (String × String))
  status : EventStatus
  version : Nat
deriving DecidableEq, Repr

/-- Modelled from the spec: the three pipeline topics (spec section 6);
the `queue.py` constants are only named in the design report. -/
inductive Topic
| intent
| analysis
| action
deriving DecidableEq, Repr

/-- Stream names of the topics, as fixed in the design report. -/
def Topic.streamName : Topic → String
| .intent => "emails:intent"
| .analysis => "emails:analysis"
| .action => "emails:action"

/-- Modelled from the spec: the classification collaborator's result
`{intent, confidence}` (spec section 6), plus the human-readable reason the
router records in `detection_reason` (spec section 3). -/
structure Classification where
  intent : Intent
  confidence : Nat
  reason : String

/-- Modelled from the spec: a scanner result `{verdict, score}` from the
static checks or the sandbox collaborator (spec section 6). -/
structure ScanResult where
  verdict : String
  score : Nat
deriving DecidableEq, Repr

/-- Modelled from the spec: the deterministic collaborator environment a
worker invocation sees.  `classify` and the `tierPolicy` table belong to
the Intent Router (section 4.3); `staticScan` and `sandbox` to the
Analysis Worker (section 4.4), with `sandbox = none` meaning retries were
exhausted; `tierOfScore` is the fixed policy mapping a refined score to a
tier; `enforceOk` is whether the enforcement collaborator succeeds within
its retry budget, and `quarantineThreat` the configurable
move-to-spam-when-malicious switch (section 4.5). -/
structure Collab where
  classify : EmailEvent → Classification
  tierPolicy : Classification → EmailEvent → RiskTier
  staticScan : EmailEvent → ScanResult
  sandbox : EmailEvent → Option ScanResult
  tierOfScore : Nat → RiskTier
  enforceOk : Bool
  quarantineThreat : Bool

/-- A call observed by the enforcement collaborator:
`enforce(event_id, label, quarantine)` (spec section 6). -/
structure EnforceCall where
  event_id : Nat
  label : String
  quarantine : Bool
deriving DecidableEq, Repr

/-- Modelled from the spec: the observable state a single event's pipeline
run touches: the stored `EmailEvent` and the log of enforcement calls. -/
structure PipelineState where
  event : EmailEvent
  enforceCalls : List EnforceCall
deriving DecidableEq, Repr

/-- Number of enforcement calls recorded for a given event id. -/
def enforceCount (s : PipelineState) (eid : Nat) : Nat :=
  (s.enforceCalls.filter (fun r => r.event_id = eid)).length

/-- Modelled from the spec: the router's redelivery guard — skip when the
status has already advanced past PROCESSING (spec section 4.3). -/
def statusPastProcessing : EventStatus → Bool
| .PENDING => false
| .PROCESSING => false
| _ => true

/-- The event as the router sees it after claiming: PENDING→PROCESSING. -/
def claimedEvent (e : EmailEvent) : EmailEvent :=
  { e with status := .PROCESSING, version := e.version + 1 }

/-- The classification the router obtains for a state's event. -/
def routedClassification (c : Collab) (s : PipelineState) : Classification :=
  c.classify (claimedEvent s.event)

/-- The risk tier the router computes from the classification, the event
content and the fixed policy table. -/
def routedTier (c : Collab) (s : PipelineState) : RiskTier :=
  c.tierPolicy (routedClassification c s) (claimedEvent s.event)

/-- Modelled from the spec: one Intent Router invocation on a claimed
intent-topic message (spec section 4.3).  Skips if the status already
advanced past PROCESSING (redelivery guard); otherwise classifies,
computes the tier by the policy table, records classification fields, and
routes: THREAT/CAUTIOUS tier or UNKNOWN intent to the analysis topic with
status ANALYZING, else to the action topic with status ACTION_PENDING.
Returns the new state and the published messages. -/
def intentStep (c : Collab) (s : PipelineState) : PipelineState × List Topic :=
  if statusPastProcessing s.event.status then (s, [])
  else
    let e0 := claimedEvent s.event
    let cls := c.classify e0
    let tier := c.tierPolicy cls e0
    let e1 := { e0 with
      intent := cls.intent,
      detection_reason := some cls.reason,
      risk_score := cls.confidence,
      risk_tier := tier,
      version := e0.version + 1 }
    if tier = .THREAT ∨ tier = .CAUTIOUS ∨ cls.intent = .UNKNOWN then
      ({ s with event := { e1 with status := .ANALYZING } }, [Topic.analysis])
    else
      ({ s with event := { e1 with status := .ACTION_PENDING } }, [Topic.action])

/-- The `detection_reason` note recorded when sandbox retries are
exhausted and the worker proceeds with the static-analysis-only result. -/
def degradedReason : String := "sandbox unavailable: static-analysis-only result"

/-- The refined score the Analysis Worker computes: the sandbox and static
scores combined when the sandbox answered, the static score alone on
retry exhaustion. -/
def refinedScore (c : Collab) (e : EmailEvent) : Nat :=
  match c.sandbox e with
  | some dyn => Nat.max (c.staticScan e).score dyn.score
  | none => (c.staticScan e).score

/-- The refined tier: the fixed policy applied to the refined score. -/
def refinedTier (c : Collab) (e : EmailEvent) : RiskTier :=
  c.tierOfScore (refinedScore c e)

/-- Modelled from the spec: one Analysis Worker invocation on a claimed
analysis-topic message (spec section 4.4).  The idempotence status guard
skips when the status already left ANALYZING; otherwise it runs the static
checks and the sandbox collaborator, merges the results into
`analysis_result` (static-only with `detection_reason` recording the
degraded condition when sandbox retries are exhausted), recomputes
`risk_score` and `risk_tier` as `max(existing, refined)`, and always
publishes to the action topic with status ACTION_PENDING. -/
def analysisStep (c : Collab) (s : PipelineState) : PipelineState × List Topic :=
  if s.event.status = .ANALYZING then
    let e := s.event
    let st := c.staticScan e
    let merged :=
      match c.sandbox e with
      | some dyn =>
          [("static_verdict", st.verdict), ("static_score", toString st.score),
           ("sandbox_verdict", dyn.verdict), ("sandbox_score", toString dyn.score)]
      | none =>
          [("static_verdict", st.verdict), ("static_score", toString st.score)]
    let reason :=
      match c.sandbox e with
      | some _ => e.detection_reason
      | none => some degradedReason
    let e1 := { e with
      analysis_result := some merged,
      detection_reason := reason,
      risk_score := Nat.max e.risk_score (refinedScore c e),
      risk_tier := RiskTier.max e.risk_tier (refinedTier c e),
      status := .ACTION_PENDING,
      version := e.version + 1 }
    ({ s with event := e1 }, [Topic.action])
  else (s, [])

/-- Modelled from the spec: the fixed label table of the Action Worker
(spec section 4.5, label names from the design report). -/
def labelFor : RiskTier → String
| .THREAT => "MailShield/MALICIOUS"
| .CAUTIOUS => "MailShield/CAUTIOUS"
| .SAFE => "MailShield/SAFE"

/-- Modelled from the spec: one Action Worker invocation on a claimed
action-topic message (spec section 4.5).  The worker's transition is
validated by the shared status state machine, so it enforces only from
ACTION_PENDING; in particular a redelivered message for an already
COMPLETED (or FAILED) event is skipped, which is the idempotence check of
section 4.5.  It maps the final tier to a label by the fixed table, calls
`enforce(event_id, label, quarantine)` with quarantine set for THREAT
(when configured), and on success sets COMPLETED; on retry exhaustion of
the enforcement collaborator it sets FAILED. -/
def actionStep (c : Collab) (s : PipelineState) : PipelineState × List Topic :=
  if s.event.status = .ACTION_PENDING then
    let lbl := labelFor s.event.risk_tier
    let quarantine := c.quarantineThreat && s.event.risk_tier == .THREAT
    let s1 := { s with
      enforceCalls := s.enforceCalls ++ [EnforceCall.mk s.event.id lbl quarantine] }
    if c.enforceOk then
      ({ s1 with event := { s1.event with status := .COMPLETED, version := s1.event.version + 1 } }, [])
    else
      ({ s1 with event := { s1.event with status := .FAILED, version := s1.event.version + 1 } }, [])
  else (s, [])

/-- Dispatch one claimed queue message to the stage worker of its topic. -/
def deliver (c : Collab) (t : Topic) (s : PipelineState) : PipelineState × List Topic :=
  match t with
  | .intent => intentStep c s
  | .analysis => analysisStep c s
  | .action => actionStep c s

/-- Modelled from the spec: whether an event's status is the expected
input status of a topic's stage worker (the state a message on that topic
finds when delivered in order). -/
def readyFor : Topic → EventStatus → Bool
| .intent, st => !statusPastProcessing st
| .analysis, st => st == .ANALYZING
| .action, st => st == .ACTION_PENDING

/-- Process a queue of messages for the event, each delivery also
enqueueing whatever the stage published, with fuel bounding the run
(three messages suffice for a full pipeline pass). -/
def runCascade (c : Collab) : Nat → List Topic → PipelineState → PipelineState
| 0, _, s => s
| _, [], s => s
| Nat.succ f, t :: rest, s =>
    let p := deliver c t s
    runCascade c f (rest ++ p.2) p.1

/-! ### Sample inputs used by witness theorems -/

/-- A concrete email event at the start of the pipeline. -/
def sampleEvent : EmailEvent :=
  ⟨1, "alice@example.com", "bob@example.com", "hello", none, none, none, none,
   none, none, .UNKNOWN, none, 0, .SAFE, none, .PENDING, 0⟩

/-- A concrete pipeline state with no enforcement calls yet. -/
def sampleState : PipelineState := ⟨sampleEvent, []⟩

/-- The sample state with the event in ANALYZING. -/
def analyzingState : PipelineState := ⟨{ sampleEvent with status := .ANALYZING }, []⟩

/-- The sample state with the event in ACTION_PENDING. -/
def actionPendingState : PipelineState := ⟨{ sampleEvent with status := .ACTION_PENDING }, []⟩

/-- A concrete collaborator environment: a known NEWSLETTER classification,
a SAFE policy verdict, clean scans, a responsive sandbox, successful
enforcement. -/
def sampleCollab : Collab :=
  ⟨fun _ => ⟨.KNOWN "NEWSLETTER", 99, "bulk newsletter"⟩,
   fun _ _ => .SAFE,
   fun _ => ⟨"clean", 5⟩,
   fun _ => some ⟨"clean", 3⟩,
   fun n => if 90 ≤ n then .THREAT else if 50 ≤ n then .CAUTIOUS else .SAFE,
   true, true⟩

/-- The sample collaborator with an exhausted (unavailable) sandbox. -/
def degradedCollab : Collab :=
  { sampleCollab with sandbox := fun _ => none }

/-- A concrete non-ok HTTP response. -/
def resSample : HttpResponse Nat := ⟨false, 500, none, none⟩

/-- A concrete browser state holding an unparsable cache slot. -/
def envMalformed : Env := ⟨true, .malformed "not json", 0, true⟩

/-- A concrete browser state holding a fresh cache entry. -/
def envFresh : Env := ⟨true, .entry ⟨[], 1000⟩, 2000, true⟩

/-! ## Helper lemmas -/

/-- `getCachedEmails` only ever touches the storage slot of the browser
state: window presence, clock and `setItem` behaviour are unchanged. -/
theorem getCachedEmails_snd (env : Env) :
    (getCachedEmails env).2.hasWindow = env.hasWindow ∧
    (getCachedEmails env).2.now = env.now ∧
    (getCachedEmails env).2.setItemOk = env.setItemOk := by
  obtain ⟨hw, st, now, sok⟩ := env
  cases hw <;> cases st <;> (try (simp only [getCachedEmails]; split_ifs)) <;> simp

/-- A fresh cache entry (within the expiry window, in a browser context)
is returned as is, with the state untouched. -/
theorem getCachedEmails_fresh (env : Env) (e : CacheEntry (List Email))
    (hw : env.hasWindow = true) (he : env.storage = .entry e)
    (hfresh : env.now - e.timestamp ≤ CACHE_EXPIRY_MS) :
    getCachedEmails env = (some e.data, env) := by
  have : ¬ env.now - e.timestamp > CACHE_EXPIRY_MS := by omega
  simp [getCachedEmails, hw, he, this]

/-- Severity never decreases when taking the tier maximum on the left. -/
theorem RiskTier.severity_le_max_left (a b : RiskTier) :
    a.severity ≤ (RiskTier.max a b).severity := by
  unfold RiskTier.max
  split_ifs with hb
  · exact le_refl _
  · exact le_of_not_le hb

/-! ## Claim theorems -/

/-- Claim C1, counterexample: the spec's seven-element status domain does
not match the code's `Email` record, whose status union has no ANALYZING
and no ACTION_PENDING literal. -/
theorem C1_status_domain_counterexample :
    "ANALYZING" ∈ specStatusStrings ∧ "ANALYZING" ∉ emailStatusStrings ∧
    "ACTION_PENDING" ∈ specStatusStrings ∧ "ACTION_PENDING" ∉ emailStatusStrings ∧
    emailStatusStrings ≠ specStatusStrings := by
  decide

/-- Claim C1, amended: every `Email` exposed at the public interface has a
status inside the spec's seven-element set, but the status domain of the
`Email` record equals exactly the five-element set
PENDING, PROCESSING, COMPLETED, FAILED, SPAM; ANALYZING and ACTION_PENDING
are not representable values of the record. -/
theorem C1_status_domain (e : Email) :
    e.status.toString ∈ emailStatusStrings ∧
    e.status.toString ∈ specStatusStrings ∧
    emailStatusStrings = ["PENDING", "PROCESSING", "COMPLETED", "FAILED", "SPAM"] := by
  refine ⟨?_, ?_, by decide⟩ <;> cases e.status <;> decide

/-- Claim C9: the `request` helper throws its `Error` exactly when the
response is not ok; on an ok response it returns the parsed JSON and the
only failure that can surface is the JSON parse rejection itself; and
outside development mode the thrown message is exactly
"API request failed (<status>)" with no body appended. -/
theorem C9_request_errors {J : Type} (dev : Bool) (res : HttpResponse J) :
    ((request dev res).isApiError = true ↔ res.ok = false) ∧
    (res.ok = true →
      request dev res =
        match res.jsonResult with
        | some v => .success v
        | none => .jsonError) ∧
    (dev = false → res.ok = false →
      request dev res = .apiError ("API request failed (" ++ toString res.status ++ ")")) := by
  obtain ⟨ok, status, tr, jr⟩ := res
  cases ok <;> cases dev <;> cases jr <;> cases tr <;>
    simp [request, requestErrorMessage, RequestOutcome.isApiError]

/-- Claim C9, witness at a concrete non-ok response in production mode. -/
theorem C9_request_errors_witness :
    request false resSample = .apiError "API request failed (500)" :=
  (C9_request_errors false resSample).2.2 rfl rfl

/-- Claim C10: the cache utilities are total over every cache state and
never throw: no window, an absent entry, an unparsable slot and a storage
failure all return without effect, an expired entry is removed with null
returned, a fresh entry is returned, and `setCachedEmails` silently
ignores `setItem` failures. -/
theorem C10_cache_never_throws (env : Env) (emails : List Email) :
    (env.hasWindow = false → getCachedEmails env = (none, env)) ∧
    (env.storage = .absent → getCachedEmails env = (none, env)) ∧
    (∀ raw, env.storage = .malformed raw → getCachedEmails env = (none, env)) ∧
    (∀ e, env.hasWindow = true → env.storage = .entry e →
      env.now - e.timestamp > CACHE_EXPIRY_MS →
      getCachedEmails env = (none, { env with storage := .absent })) ∧
    (∀ e, env.hasWindow = true → env.storage = .entry e →
      env.now - e.timestamp ≤ CACHE_EXPIRY_MS →
      getCachedEmails env = (some e.data, env)) ∧
    (env.setItemOk = false → setCachedEmails emails env = env) ∧
    (env.hasWindow = false → setCachedEmails emails env = env ∧ clearEmailsCache env = env) ∧
    (env.hasWindow = true → (clearEmailsCache env).storage = .absent) := by
  obtain ⟨hw, st, now, sok⟩ := env
  refine ⟨fun h => ?_, fun h => ?_, fun raw h => ?_, fun e h1 h2 h3 => ?_,
    fun e h1 h2 h3 => ?_, fun h => ?_, fun h => ?_, fun h => ?_⟩ <;>
    subst_vars <;>
    simp_all [getCachedEmails, setCachedEmails, clearEmailsCache]

/-- Claim C10, witness: an unparsable cache slot yields null with the
state untouched. -/
theorem C10_cache_never_throws_witness :
    getCachedEmails envMalformed = (none, envMalformed) :=
  (C10_cache_never_throws envMalformed []).2.2.1 "not json" rfl

/-- Claim C8: with `skipCache` unset or false, a fresh cache entry (at
most five minutes old) is returned with no API request issued; otherwise
`fetchEmails` requests `/api/emails?limit=20`, caches the response under
the current timestamp, and returns it. -/
theorem C8_fetchEmails_cache (api : List Email) (env : Env)
    (hw : env.hasWindow = true) :
    (∀ e, env.storage = .entry e → env.now - e.timestamp ≤ CACHE_EXPIRY_MS →
      fetchEmails api false env = ⟨e.data, env, []⟩) ∧
    ((getCachedEmails env).1 = none → env.setItemOk = true →
      fetchEmails api false env =
        ⟨api, { (getCachedEmails env).2 with storage := .entry ⟨api, env.now⟩ },
         [emailsPath]⟩) := by
  constructor
  · intro e he hfresh
    have hget : getCachedEmails env = (some e.data, env) :=
      getCachedEmails_fresh env e hw he hfresh
    simp [fetchEmails, hget]
  · intro hmiss hsok
    obtain ⟨hw2, hnow2, hsok2⟩ := getCachedEmails_snd env
    rcases hget : getCachedEmails env with ⟨v, env1⟩
    rw [hget] at hmiss hw2 hnow2 hsok2
    simp only [Prod.fst, Prod.snd] at hmiss hw2 hnow2 hsok2
    subst hmiss
    rw [hw] at hw2
    rw [hsok] at hsok2
    simp [fetchEmails, hget, setCachedEmails, hw2, hsok2, hnow2]

/-- Claim C8, witness: a fresh concrete cache entry is served with no
API request. -/
theorem C8_fetchEmails_cache_witness :
    fetchEmails [] false envFresh = ⟨[], envFresh, []⟩ :=
  (C8_fetchEmails_cache [] envFresh rfl).1 ⟨[], 1000⟩ rfl (by decide)

/-- Claim C2: on a claimed intent-topic message (status not yet past
PROCESSING), the router publishes to the analysis topic with status
ANALYZING when the computed tier is THREAT or CAUTIOUS or the intent is
UNKNOWN, and otherwise publishes to the action topic with status
ACTION_PENDING. -/
theorem C2_intent_routing (c : Collab) (s : PipelineState)
    (h : statusPastProcessing s.event.status = false) :
    ((routedTier c s = .THREAT ∨ routedTier c s = .CAUTIOUS ∨
        (routedClassification c s).intent = .UNKNOWN) →
      (intentStep c s).2 = [Topic.analysis] ∧
      (intentStep c s).1.event.status = .ANALYZING) ∧
    (¬(routedTier c s = .THREAT ∨ routedTier c s = .CAUTIOUS ∨
        (routedClassification c s).intent = .UNKNOWN) →
      (intentStep c s).2 = [Topic.action] ∧
      (intentStep c s).1.event.status = .ACTION_PENDING) := by
  unfold intentStep routedTier routedClassification
  rw [h]
  constructor
  · intro hcond
    simp only [Bool.false_eq_true, if_false]
    rw [if_pos hcond]
    exact ⟨rfl, rfl⟩
  · intro hcond
    simp only [Bool.false_eq_true, if_false]
    rw [if_neg hcond]
    exact ⟨rfl, rfl⟩

/-- Claim C2, witness: a known SAFE classification routes straight to the
action topic with status ACTION_PENDING. -/
theorem C2_intent_routing_witness :
    (intentStep sampleCollab sampleState).2 = [Topic.action] ∧
    (intentStep sampleCollab sampleState).1.event.status = .ACTION_PENDING :=
  (C2_intent_routing sampleCollab sampleState rfl).2 (by decide)

/-- Claim C3: after an Analysis Worker run the risk tier and risk score
are never of lower severity than before, and on an ANALYZING event they
are computed exactly as the maximum of the existing and the refined
assessment under the severity ordering. -/
theorem C3_risk_refinement_monotone (c : Collab) (s : PipelineState) :
    s.event.risk_tier.severity ≤ ((analysisStep c s).1.event.risk_tier).severity ∧
    s.event.risk_score ≤ (analysisStep c s).1.event.risk_score ∧
    (s.event.status = .ANALYZING →
      (analysisStep c s).1.event.risk_tier =
        RiskTier.max s.event.risk_tier (refinedTier c s.event) ∧
      (analysisStep c s).1.event.risk_score =
        Nat.max s.event.risk_score (refinedScore c s.event)) := by
  by_cases h : s.event.status = .ANALYZING
  · refine ⟨?_, ?_, fun _ => ⟨?_, ?_⟩⟩ <;>
      simp [analysisStep, h, RiskTier.severity_le_max_left, Nat.le_max_left]
  · simp [analysisStep, h]

/-- Claim C3, witness at a concrete ANALYZING event. -/
theorem C3_risk_refinement_monotone_witness :
    (analysisStep sampleCollab analyzingState).1.event.risk_tier =
      RiskTier.max analyzingState.event.risk_tier
        (refinedTier sampleCollab analyzingState.event) :=
  ((C3_risk_refinement_monotone sampleCollab analyzingState).2.2 rfl).1

/-- Claim C6: on a consumed analysis-topic message the Analysis Worker
always publishes to the action topic and sets status ACTION_PENDING,
whatever the sandbox outcome; when sandbox retries are exhausted it
forwards the static-analysis-only result and records the degraded
condition in `detection_reason`. -/
theorem C6_analysis_always_forwards (c : Collab) (s : PipelineState)
    (h : s.event.status = .ANALYZING) :
    (analysisStep c s).2 = [Topic.action] ∧
    (analysisStep c s).1.event.status = .ACTION_PENDING ∧
    (c.sandbox s.event = none →
      (analysisStep c s).1.event.detection_reason = some degradedReason ∧
      (analysisStep c s).1.event.risk_score =
        Nat.max s.event.risk_score (c.staticScan s.event).score ∧
      (analysisStep c s).1.event.analysis_result =
        some [("static_verdict", (c.staticScan s.event).verdict),
              ("static_score", toString (c.staticScan s.event).score)]) := by
  refine ⟨?_, ?_, fun hsb => ?_⟩
  · simp [analysisStep, h]
  · simp [analysisStep, h]
  · refine ⟨?_, ?_, ?_⟩ <;> simp [analysisStep, h, hsb, refinedScore]

/-- Claim C6, witness: an exhausted sandbox still forwards, with the
degraded condition recorded. -/
theorem C6_analysis_always_forwards_witness :
    (analysisStep degradedCollab analyzingState).2 = [Topic.action] ∧
    (analysisStep degradedCollab analyzingState).1.event.detection_reason =
      some degradedReason :=
  ⟨(C6_analysis_always_forwards degradedCollab analyzingState rfl).1,
   ((C6_analysis_always_forwards degradedCollab analyzingState rfl).2.2 rfl).1⟩

/-- Claim C7: the Action Worker applies exactly the label given by the
fixed table on the final risk tier (THREAT to the malicious label,
CAUTIOUS to the cautious label, SAFE to the safe label), and on successful
enforcement sets status COMPLETED. -/
theorem C7_action_label_table (c : Collab) (s : PipelineState)
    (h : s.event.status = .ACTION_PENDING) :
    (actionStep c s).1.enforceCalls =
      s.enforceCalls ++
        [EnforceCall.mk s.event.id (labelFor s.event.risk_tier)
          (c.quarantineThreat && s.event.risk_tier == .THREAT)] ∧
    labelFor .THREAT = "MailShield/MALICIOUS" ∧
    labelFor .CAUTIOUS = "MailShield/CAUTIOUS" ∧
    labelFor .SAFE = "MailShield/SAFE" ∧
    (c.enforceOk = true → (actionStep c s).1.event.status = .COMPLETED) := by
  cases he : c.enforceOk <;> simp [actionStep, h, he, labelFor]

/-- Claim C7, witness: a SAFE event gets the safe label and completes. -/
theorem C7_action_label_table_witness :
    (actionStep sampleCollab actionPendingState).1.event.status = .COMPLETED :=
  (C7_action_label_table sampleCollab actionPendingState rfl).2.2.2.2 rfl

/-! ## Cascade lemmas for state-machine and idempotence claims -/

/-- Redelivery guard of the router: a status past PROCESSING is skipped. -/
theorem intentStep_skip (c : Collab) (s : PipelineState)
    (h : statusPastProcessing s.event.status = true) :
    intentStep c s = (s, []) := by
  simp [intentStep, h]

/-- Status guard of the Analysis Worker: only ANALYZING is processed. -/
theorem analysisStep_skip (c : Collab) (s : PipelineState)
    (h : ¬ s.event.status = .ANALYZING) :
    analysisStep c s = (s, []) := by
  simp [analysisStep, h]

/-- Status guard of the Action Worker: only ACTION_PENDING is processed. -/
theorem actionStep_skip (c : Collab) (s : PipelineState)
    (h : ¬ s.event.status = .ACTION_PENDING) :
    actionStep c s = (s, []) := by
  simp [actionStep, h]

/-- A message delivered for an event in a terminal status is skipped by
every stage worker. -/
theorem deliver_terminal (c : Collab) (t : Topic) (s : PipelineState)
    (h : terminalStatus s.event.status = true) :
    deliver c t s = (s, []) := by
  cases t
  · exact intentStep_skip c s
      (by cases hst : s.event.status <;> simp_all [terminalStatus, statusPastProcessing])
  · exact analysisStep_skip c s
      (by cases hst : s.event.status <;> simp_all [terminalStatus])
  · exact actionStep_skip c s
      (by cases hst : s.event.status <;> simp_all [terminalStatus])

/-- The router on a processable status: it publishes exactly one message
routing to analysis (status ANALYZING) or to action (status
ACTION_PENDING), never touches the enforcement log, and keeps the id. -/
theorem intentStep_run (c : Collab) (s : PipelineState)
    (h : statusPastProcessing s.event.status = false) :
    (((intentStep c s).1.event.status = .ANALYZING ∧ (intentStep c s).2 = [Topic.analysis]) ∨
     ((intentStep c s).1.event.status = .ACTION_PENDING ∧ (intentStep c s).2 = [Topic.action])) ∧
    (intentStep c s).1.enforceCalls = s.enforceCalls ∧
    (intentStep c s).1.event.id = s.event.id := by
  unfold intentStep
  rw [h]
  simp only [Bool.false_eq_true, if_false]
  split
  · exact ⟨.inl ⟨rfl, rfl⟩, rfl, rfl⟩
  · exact ⟨.inr ⟨rfl, rfl⟩, rfl, rfl⟩

/-- The Analysis Worker on an ANALYZING event: forwards to action, keeps
the enforcement log and the id. -/
theorem analysisStep_run (c : Collab) (s : PipelineState)
    (h : s.event.status = .ANALYZING) :
    (analysisStep c s).1.event.status = .ACTION_PENDING ∧
    (analysisStep c s).2 = [Topic.action] ∧
    (analysisStep c s).1.enforceCalls = s.enforceCalls ∧
    (analysisStep c s).1.event.id = s.event.id := by
  simp [analysisStep, h]

/-- The Action Worker on an ACTION_PENDING event: ends in a terminal
status, publishes nothing, and appends exactly one enforcement call for
the event's id. -/
theorem actionStep_run (c : Collab) (s : PipelineState)
    (h : s.event.status = .ACTION_PENDING) :
    ((actionStep c s).1.event.status = .COMPLETED ∨
     (actionStep c s).1.event.status = .FAILED) ∧
    (actionStep c s).2 = [] ∧
    (actionStep c s).1.enforceCalls =
      s.enforceCalls ++
        [EnforceCall.mk s.event.id (labelFor s.event.risk_tier)
          (c.quarantineThreat && s.event.risk_tier == .THREAT)] := by
  cases he : c.enforceOk <;> simp [actionStep, h, he]

/-- A cascade out of fuel or messages is finished. -/
theorem runCascade_nil (c : Collab) (f : Nat) (s : PipelineState) :
    runCascade c f [] s = s := by
  cases f <;> rfl

/-- One cascade step: deliver the head message and enqueue what it
published. -/
theorem runCascade_cons (c : Collab) (f : Nat) (t : Topic) (rest : List Topic)
    (s : PipelineState) :
    runCascade c (f + 1) (t :: rest) s =
      runCascade c f (rest ++ (deliver c t s).2) (deliver c t s).1 := rfl

/-- A cascade of one message that the stage skips leaves the state as is. -/
theorem runCascade_skip_single (c : Collab) (t : Topic) (s : PipelineState)
    (h : deliver c t s = (s, [])) :
    runCascade c 4 [t] s = s := by
  have step : runCascade c 4 [t] s =
      runCascade c 3 ([] ++ (deliver c t s).2) (deliver c t s).1 :=
    runCascade_cons c 3 t [] s
  rw [step, h]
  exact runCascade_nil c 3 s

/-- Cascade of an action-topic message from ACTION_PENDING. -/
theorem runCascade_action (c : Collab) (f : Nat) (s : PipelineState)
    (h : s.event.status = .ACTION_PENDING) :
    runCascade c (f + 1) [Topic.action] s = (actionStep c s).1 := by
  have h2 := (actionStep_run c s h).2.1
  calc runCascade c (f + 1) [Topic.action] s
      = runCascade c f ([] ++ (actionStep c s).2) (actionStep c s).1 :=
        runCascade_cons c f Topic.action [] s
    _ = (actionStep c s).1 := by
        rw [h2]
        exact runCascade_nil c f _

/-- Cascade of an analysis-topic message from ANALYZING: analysis then
action. -/
theorem runCascade_analysis (c : Collab) (f : Nat) (s : PipelineState)
    (h : s.event.status = .ANALYZING) :
    runCascade c (f + 2) [Topic.analysis] s =
      (actionStep c (analysisStep c s).1).1 := by
  obtain ⟨h1, h2, _, _⟩ := analysisStep_run c s h
  calc runCascade c (f + 2) [Topic.analysis] s
      = runCascade c (f + 1) ([] ++ (analysisStep c s).2) (analysisStep c s).1 :=
        runCascade_cons c (f + 1) Topic.analysis [] s
    _ = runCascade c (f + 1) [Topic.action] (analysisStep c s).1 := by rw [h2, List.nil_append]
    _ = (actionStep c (analysisStep c s).1).1 := runCascade_action c f _ h1

/-- Cascade of an intent-topic message from a processable status: route to
analysis then action, or directly to action. -/
theorem runCascade_intent (c : Collab) (f : Nat) (s : PipelineState)
    (h : statusPastProcessing s.event.status = false) :
    ((intentStep c s).1.event.status = .ANALYZING ∧
      runCascade c (f + 3) [Topic.intent] s =
        (actionStep c (analysisStep c (intentStep c s).1).1).1) ∨
    ((intentStep c s).1.event.status = .ACTION_PENDING ∧
      runCascade c (f + 3) [Topic.intent] s =
        (actionStep c (intentStep c s).1).1) := by
  obtain ⟨hroute, hec, hid⟩ := intentStep_run c s h
  rcases hroute with ⟨hst, hpub⟩ | ⟨hst, hpub⟩
  · refine .inl ⟨hst, ?_⟩
    calc runCascade c (f + 3) [Topic.intent] s
        = runCascade c (f + 2) ([] ++ (intentStep c s).2) (intentStep c s).1 :=
          runCascade_cons c (f + 2) Topic.intent [] s
      _ = runCascade c (f + 2) [Topic.analysis] (intentStep c s).1 := by rw [hpub, List.nil_append]
      _ = (actionStep c (analysisStep c (intentStep c s).1).1).1 :=
          runCascade_analysis c f _ hst
  · refine .inr ⟨hst, ?_⟩
    calc runCascade c (f + 3) [Topic.intent] s
        = runCascade c (f + 2) ([] ++ (intentStep c s).2) (intentStep c s).1 :=
          runCascade_cons c (f + 2) Topic.intent [] s
      _ = runCascade c (f + 2) [Topic.action] (intentStep c s).1 := by rw [hpub, List.nil_append]
      _ = (actionStep c (intentStep c s).1).1 := runCascade_action c (f + 1) _ hst

/-- `stepsTo` is reflexive. -/
theorem stepsTo_refl (a : EventStatus) : stepsTo a a = true := by
  cases a <;> decide

/-- Claim C5: the status state machine only moves forward: no legal
transition targets PENDING, PROCESSING is only entered from PENDING,
terminal states have no outgoing transition, and each stage worker moves
the status only along the legal transition graph (or leaves it put). -/
theorem C5_status_forward_only (c : Collab) (s : PipelineState) :
    (∀ a b, legalStep a b = true → b ≠ .PENDING ∧ (b = .PROCESSING → a = .PENDING)) ∧
    (∀ a b, terminalStatus a = true → legalStep a b = false) ∧
    stepsTo s.event.status (intentStep c s).1.event.status = true ∧
    stepsTo s.event.status (analysisStep c s).1.event.status = true ∧
    stepsTo s.event.status (actionStep c s).1.event.status = true := by
  refine ⟨?_, ?_, ?_, ?_, ?_⟩
  · intro a b hab
    cases a <;> cases b <;> simp_all [legalStep, terminalStatus]
  · intro a b ha
    cases a <;> cases b <;> simp_all [legalStep, terminalStatus]
  · by_cases h : statusPastProcessing s.event.status = true
    · rw [intentStep_skip c s h]
      exact stepsTo_refl _
    · have hf : statusPastProcessing s.event.status = false := by
        cases hb : statusPastProcessing s.event.status
        · rfl
        · exact absurd hb h
      obtain ⟨hroute, _, _⟩ := intentStep_run c s hf
      have hin : s.event.status = .PENDING ∨ s.event.status = .PROCESSING := by
        cases hss : s.event.status <;> simp_all [statusPastProcessing]
      rcases hroute with ⟨hst, _⟩ | ⟨hst, _⟩ <;> rw [hst] <;>
        rcases hin with hss | hss <;> rw [hss] <;> decide
  · by_cases h : s.event.status = .ANALYZING
    · rw [(analysisStep_run c s h).1, h]
      decide
    · rw [analysisStep_skip c s h]
      exact stepsTo_refl _
  · by_cases h : s.event.status = .ACTION_PENDING
    · rcases (actionStep_run c s h).1 with hst | hst <;> rw [hst, h] <;> decide
    · rw [actionStep_skip c s h]
      exact stepsTo_refl _

/-- Claim C5, witness: the router's move out of the sample PENDING state
follows the transition graph. -/
theorem C5_status_forward_only_witness :
    stepsTo sampleState.event.status
      (intentStep sampleCollab sampleState).1.event.status = true :=
  (C5_status_forward_only sampleCollab sampleState).2.2.1

/-- Claim C4: delivering the same queue message a second time after the
first delivery's cascade ran to completion changes nothing: the final
state is literally the same, so status and risk tier agree, and the
enforcement collaborator has been called exactly once for the event's id
across both deliveries. -/
theorem C4_redelivery_idempotent (c : Collab) (t : Topic) (s : PipelineState)
    (h1 : readyFor t s.event.status = true) (h2 : s.enforceCalls = []) :
    runCascade c 4 [t] (runCascade c 4 [t] s) = runCascade c 4 [t] s ∧
    (runCascade c 4 [t] (runCascade c 4 [t] s)).event.status =
      (runCascade c 4 [t] s).event.status ∧
    (runCascade c 4 [t] (runCascade c 4 [t] s)).event.risk_tier =
      (runCascade c 4 [t] s).event.risk_tier ∧
    enforceCount (runCascade c 4 [t] s) s.event.id = 1 ∧
    enforceCount (runCascade c 4 [t] (runCascade c 4 [t] s)) s.event.id = 1 := by
  have key : terminalStatus (runCascade c 4 [t] s).event.status = true ∧
      ∃ rec : EnforceCall, rec.event_id = s.event.id ∧
        (runCascade c 4 [t] s).enforceCalls = s.enforceCalls ++ [rec] := by
    cases t
    case intent =>
      have hf : statusPastProcessing s.event.status = false := by
        simpa [readyFor] using h1
      rcases runCascade_intent c 1 s hf with ⟨hst, heq⟩ | ⟨hst, heq⟩
      · have ha := analysisStep_run c (intentStep c s).1 hst
        have hb := actionStep_run c (analysisStep c (intentStep c s).1).1 ha.1
        obtain ⟨hi, hie, hii⟩ := intentStep_run c s hf
        rw [show runCascade c 4 [Topic.intent] s =
            (actionStep c (analysisStep c (intentStep c s).1).1).1 from heq]
        refine ⟨?_, ?_⟩
        · rcases hb.1 with hx | hx <;> rw [hx] <;> rfl
        · refine ⟨EnforceCall.mk (analysisStep c (intentStep c s).1).1.event.id
            (labelFor (analysisStep c (intentStep c s).1).1.event.risk_tier)
            (c.quarantineThreat &&
              (analysisStep c (intentStep c s).1).1.event.risk_tier == .THREAT), ?_, ?_⟩
          · show (analysisStep c (intentStep c s).1).1.event.id = s.event.id
            rw [ha.2.2.2, hii]
          · rw [hb.2.2, ha.2.2.1, hie]
      · have hb := actionStep_run c (intentStep c s).1 hst
        obtain ⟨hi, hie, hii⟩ := intentStep_run c s hf
        rw [show runCascade c 4 [Topic.intent] s =
            (actionStep c (intentStep c s).1).1 from heq]
        refine ⟨?_, ?_⟩
        · rcases hb.1 with hx | hx <;> rw [hx] <;> rfl
        · refine ⟨EnforceCall.mk (intentStep c s).1.event.id
            (labelFor (intentStep c s).1.event.risk_tier)
            (c.quarantineThreat && (intentStep c s).1.event.risk_tier == .THREAT), ?_, ?_⟩
          · show (intentStep c s).1.event.id = s.event.id
            exact hii
          · rw [hb.2.2, hie]
    case analysis =>
      have ha : s.event.status = .ANALYZING := by
        simpa [readyFor] using h1
      have hrun := analysisStep_run c s ha
      have hb := actionStep_run c (analysisStep c s).1 hrun.1
      rw [show runCascade c 4 [Topic.analysis] s =
          (actionStep c (analysisStep c s).1).1 from runCascade_analysis c 2 s ha]
      refine ⟨?_, ?_⟩
      · rcases hb.1 with hx | hx <;> rw [hx] <;> rfl
      · refine ⟨EnforceCall.mk (analysisStep c s).1.event.id
          (labelFor (analysisStep c s).1.event.risk_tier)
          (c.quarantineThreat && (analysisStep c s).1.event.risk_tier == .THREAT), ?_, ?_⟩
        · show (analysisStep c s).1.event.id = s.event.id
          exact hrun.2.2.2
        · rw [hb.2.2, hrun.2.2.1]
    case action =>
      have ha : s.event.status = .ACTION_PENDING := by
        simpa [readyFor] using h1
      have hb := actionStep_run c s ha
      rw [show runCascade c 4 [Topic.action] s = (actionStep c s).1 from
          runCascade_action c 3 s ha]
      refine ⟨?_, ?_⟩
      · rcases hb.1 with hx | hx <;> rw [hx] <;> rfl
      · exact ⟨_, rfl, hb.2.2⟩
  have hskip : deliver c t (runCascade c 4 [t] s) = (runCascade c 4 [t] s, []) :=
    deliver_terminal c t _ key.1
  have htwice : runCascade c 4 [t] (runCascade c 4 [t] s) = runCascade c 4 [t] s :=
    runCascade_skip_single c t _ hskip
  obtain ⟨rec, hrid, hcalls⟩ := key.2
  have hcount : enforceCount (runCascade c 4 [t] s) s.event.id = 1 := by
    rw [enforceCount, hcalls, h2]
    simp [hrid]
  exact ⟨htwice, by rw [htwice], by rw [htwice], hcount, by rw [htwice]; exact hcount⟩

/-- Claim C4, witness: a concrete intent-topic message replayed after its
full cascade leaves exactly one enforcement call for the event. -/
theorem C4_redelivery_idempotent_witness :
    enforceCount (runCascade sampleCollab 4 [Topic.intent]
      (runCascade sampleCollab 4 [Topic.intent] sampleState)) 1 = 1 :=
  (C4_redelivery_idempotent sampleCollab Topic.intent sampleState rfl rfl).2.2.2.2

end MailShield
